import Mathlib

/-!
# WS2812 LED driver: shallow embedding and verification

This file embeds the WS2812 SPI/DMA LED-strip driver (the frame encoder
`encode_byte_to_ws2812` / `encode_leds_to_spi`, the color-table mutator
`set_led_color`, and the transmit routine `ws2812_show`) as Lean functions
and proves the specification's claims about them.

Machine integers are modelled as `Nat` with explicit reduction modulo
`2 ^ 8` / `2 ^ 32` where the C code's fixed-width arithmetic can overflow.
The hardware collaborators (mtimer delays, the DMA channel) are modelled by
an event trace and a `Lane` record describing the DMA channel's observable
behaviour for one transfer.
-/

namespace WS2812

/-- `#define NUM_LEDS 8` -/
def NUM_LEDS : Nat := 8

/-- `#define BYTES_PER_LED 12` -/
def BYTES_PER_LED : Nat := 12

/-- `#define SPI_BUFFER_SIZE (NUM_LEDS * BYTES_PER_LED)` -/
def SPI_BUFFER_SIZE : Nat := NUM_LEDS * BYTES_PER_LED

/-- `#define WS2812_0 0b1000` -/
def WS2812_0 : Nat := 0b1000

/-- `#define WS2812_1 0b1100` -/
def WS2812_1 : Nat := 0b1100

/-- `typedef struct { uint8_t r; uint8_t g; uint8_t b; } ws2812_color_t;` -/
structure ws2812_color_t where
  r : Nat
  g : Nat
  b : Nat
deriving DecidableEq, Repr

/-- The loop body of `encode_byte_to_ws2812`, iterated `i` times:
`encoded <<= 4; encoded |= (byte & 0x80 ? WS2812_1 : WS2812_0); byte <<= 1;`
with `encoded : uint32_t` and `byte : uint8_t`. -/
def encodeBitsLoop : Nat → Nat → Nat → Nat
  | 0, _, encoded => encoded
  | i + 1, byte, encoded =>
    let encoded := (encoded <<< 4) % 2 ^ 32
    let encoded := if byte &&& 0x80 ≠ 0 then encoded ||| WS2812_1 else encoded ||| WS2812_0
    encodeBitsLoop i ((byte <<< 1) % 2 ^ 8) encoded

/-- `encode_byte_to_ws2812`: encode one channel byte into 4 SPI bytes,
emitting the 32-bit accumulator big-endian (`out[0] = encoded >> 24`, ...). -/
def encode_byte_to_ws2812 (byte : Nat) : List Nat :=
  let encoded := encodeBitsLoop 8 byte 0
  [(encoded >>> 24) &&& 0xFF, (encoded >>> 16) &&& 0xFF, (encoded >>> 8) &&& 0xFF,
    encoded &&& 0xFF]

/-- `encode_leds_to_spi`: for each LED index `0 ≤ i < NUM_LEDS`, append the
encodings of the green, red and blue channels (GRB wire order) of
`led_colors[i]` to the SPI buffer.  The `led_colors` array is modelled as a
function from index to color. -/
def encode_leds_to_spi (led_colors : Nat → ws2812_color_t) : List Nat :=
  (List.range NUM_LEDS).flatMap fun i =>
    encode_byte_to_ws2812 (led_colors i).g ++
    encode_byte_to_ws2812 (led_colors i).r ++
    encode_byte_to_ws2812 (led_colors i).b

/-- `set_led_color`: write `(r, g, b)` into `led_colors[index]` when
`index < NUM_LEDS`, otherwise do nothing. -/
def set_led_color (index r g b : Nat) (led_colors : Nat → ws2812_color_t) :
    Nat → ws2812_color_t :=
  if index < NUM_LEDS then
    fun i => if i = index then ⟨r, g, b⟩ else led_colors i
  else
    led_colors

/-! ## Spec-side definitions

`specEncodeByte` restates the spec's per-byte encoding algorithm in the
spec's own words, to be compared with `encode_byte_to_ws2812` (claim C1):
process the 8 bits most-significant first, map bit 0 to pattern `1000` and
bit 1 to pattern `1100`, accumulate by shift-left-4-then-OR into a 32-bit
accumulator, and split the accumulator into 4 bytes most-significant first.

`decodeNibble` / `decodeWs2812` are the spec's decoder for claim C5: each
4-bit group of the output maps back to protocol bit 0 if it is `1000` and
to protocol bit 1 if it is `1100`. -/

/-- The per-byte encoding algorithm as the spec words it (C1 reference). -/
def specEncodeByte (b : Nat) : List Nat :=
  let acc := (List.range 8).foldl
    (fun acc i =>
      ((acc <<< 4) % 2 ^ 32) ||| (if b.testBit (7 - i) then 0b1100 else 0b1000)) 0
  [(acc >>> 24) % 2 ^ 8, (acc >>> 16) % 2 ^ 8, (acc >>> 8) % 2 ^ 8, acc % 2 ^ 8]

/-- Map one 4-bit output group back to a protocol bit (spec's decoder). -/
def decodeNibble (n : Nat) : Option Nat :=
  if n = 0b1000 then some 0 else if n = 0b1100 then some 1 else none

/-- Decode an encoded byte group: split each output byte into its high and
low 4-bit groups (in transmission order), map each group back to a protocol
bit, and reassemble the bits most-significant first. -/
def decodeWs2812 (bytes : List Nat) : Option Nat :=
  let nibbles := bytes.flatMap fun c => [c >>> 4, c &&& 0xF]
  nibbles.foldl
    (fun acc n =>
      match acc, decodeNibble n with
      | some a, some bit => some (a * 2 + bit)
      | _, _ => none)
    (some 0)

/-! ## Transmitter model

`ws2812_show` performs, in order: `qcc74x_mtimer_delay_us(100)`;
`encode_leds_to_spi()`; `qcc74x_dma_channel_lli_reload(..., SPI_BUFFER_SIZE ...)`;
`qcc74x_dma_channel_start(...)`; a busy-poll loop
`while (qcc74x_dma_channel_isbusy(...)) {}`; `qcc74x_mtimer_delay_us(100)`.
It returns `void` and discards the `int` results of the reload and start
calls.  The observable interaction is recorded as an event trace; the DMA
channel's behaviour for the transfer is a `Lane`: the `int` codes its calls
return and how many times `isbusy` reports `true` before completion. -/

/-- One observable interaction of `ws2812_show` with its collaborators. -/
inductive Event where
  | delayUs : Nat → Event
  | encodeFrame : Event
  | dmaReload : Nat → Event
  | dmaStart : Event
  | pollBusy : Bool → Event
deriving DecidableEq, Repr

/-- The DMA channel's observable behaviour for one transfer: the results of
the reload and start calls (discarded by the C code) and the number of
busy polls before `isbusy` reports false. -/
structure Lane where
  reloadResult : Int
  startResult : Int
  busyPolls : Nat
deriving DecidableEq, Repr

/-- Driver state: the `led_colors` array and the `spi_buffer` contents. -/
structure DriverState where
  led_colors : Nat → ws2812_color_t
  spi_buffer : List Nat

/-- The busy-poll loop `while (qcc74x_dma_channel_isbusy(dma0_ch0)) {}`
against a lane that reports busy `n` times before completing. -/
def waitForDma : Nat → List Event
  | 0 => [Event.pollBusy false]
  | n + 1 => Event.pollBusy true :: waitForDma n

/-- `ws2812_show`: pre-delay, encode into the SPI buffer, reload and start
the DMA transfer of `SPI_BUFFER_SIZE` bytes, busy-wait to completion,
post-delay.  Returns the new driver state and the event trace; the lane's
result codes do not influence either (the C function returns `void`). -/
def ws2812_show (s : DriverState) (lane : Lane) : DriverState × List Event :=
  ({ s with spi_buffer := encode_leds_to_spi s.led_colors },
    [Event.delayUs 100, Event.encodeFrame,
      Event.dmaReload SPI_BUFFER_SIZE, Event.dmaStart] ++
    waitForDma lane.busyPolls ++ [Event.delayUs 100])

/-- The all-black color table the driver starts from. -/
def blackTable : Nat → ws2812_color_t := fun _ => ⟨0, 0, 0⟩

/-- A table whose LED 0 is pure red and all other LEDs are black. -/
def redTable : Nat → ws2812_color_t := fun i => if i = 0 then ⟨255, 0, 0⟩ else ⟨0, 0, 0⟩

end WS2812

namespace WS2812

/-! ## Helper lemmas -/

/-- Each channel encoding is 4 bytes long. -/
theorem encode_byte_length (b : Nat) : (encode_byte_to_ws2812 b).length = 4 := rfl

/-- A `flatMap` whose blocks all have length `k` has length `k * l.length`. -/
theorem length_flatMap_const {α : Type} (f : α → List Nat) (k : Nat)
    (hf : ∀ x, (f x).length = k) :
    ∀ l : List α, (l.flatMap f).length = k * l.length := by
  intro l
  induction l with
  | nil => simp
  | cons a l ih =>
    simp [List.flatMap_cons, ih, hf]
    ring

/-- Extracting the `i`-th length-`k` segment of a `flatMap` of length-`k`
blocks yields the `i`-th block. -/
theorem flatMap_block_segment {α : Type} (f : α → List Nat) (k : Nat)
    (hf : ∀ x, (f x).length = k) :
    ∀ (l : List α) (i : Nat) (h : i < l.length),
      ((l.flatMap f).drop (k * i)).take k = f (l.get ⟨i, h⟩) := by
  intro l
  induction l with
  | nil => intro i h; simp at h
  | cons a l ih =>
    intro i h
    cases i with
    | zero =>
      rw [List.flatMap_cons, Nat.mul_zero, List.drop_zero,
        List.take_append_of_le_length (by rw [hf a]),
        ← hf a, List.take_length]
      rfl
    | succ i =>
      rw [List.flatMap_cons, show k * (i + 1) = (f a).length + k * i by rw [hf a]; ring,
        List.drop_append]
      exact ih i (by simpa using h)

/-- The busy-wait trace is `n` busy polls followed by the completion poll. -/
theorem waitForDma_eq (n : Nat) :
    waitForDma n = List.replicate n (Event.pollBusy true) ++ [Event.pollBusy false] := by
  induction n with
  | zero => rfl
  | succ n ih => rw [waitForDma, ih, List.replicate_succ, List.cons_append]

/-- The busy-wait trace contains no `dmaStart` event. -/
theorem waitForDma_count_start (n : Nat) :
    (waitForDma n).count Event.dmaStart = 0 := by
  induction n with
  | zero => rfl
  | succ n ih => rw [waitForDma, List.count_cons_of_ne (by simp), ih]

end WS2812

namespace WS2812

/-- The encoded frame always has length `12 * NUM_LEDS`. -/
theorem encode_leds_length (t : Nat → ws2812_color_t) :
    (encode_leds_to_spi t).length = 12 * NUM_LEDS := by
  rw [encode_leds_to_spi,
    length_flatMap_const _ 12 (fun x => by simp [encode_byte_length])]
  simp

/-- C1: for every 8-bit channel value, the byte encoder processes the 8 bits
most-significant first, maps protocol bit 0 to pattern `1000` and bit 1 to
pattern `1100`, accumulates by shift-left-4-then-OR into a 32-bit
accumulator, and emits the accumulator as exactly 4 bytes
most-significant-byte first: it agrees with the spec's algorithm
`specEncodeByte` on all 256 byte values. -/
theorem C1_encode_byte_matches_spec :
    ∀ b < 256, encode_byte_to_ws2812 b = specEncodeByte b := by
  set_option maxRecDepth 4096 in decide

/-- Witness for C1 at the concrete byte `0xA7`. -/
theorem C1_witness :
    0xA7 < 256 ∧ encode_byte_to_ws2812 0xA7 = specEncodeByte 0xA7 :=
  ⟨by decide, C1_encode_byte_matches_spec 0xA7 (by decide)⟩

/-- C2: for every LED index `i < NUM_LEDS`, the 12-byte output segment at
offset `12 * i` of the encoded frame is the encoding of the LED's green
channel, then its red channel, then its blue channel (GRB wire order). -/
theorem C2_segment_is_grb (t : Nat → ws2812_color_t) (i : Nat)
    (h : i < NUM_LEDS) :
    ((encode_leds_to_spi t).drop (12 * i)).take 12 =
      encode_byte_to_ws2812 (t i).g ++ encode_byte_to_ws2812 (t i).r ++
        encode_byte_to_ws2812 (t i).b := by
  have h' : i < (List.range NUM_LEDS).length := by simpa using h
  rw [encode_leds_to_spi,
    flatMap_block_segment _ 12 (fun x => by simp [encode_byte_length])
      (List.range NUM_LEDS) i h']
  simp

/-- Witness for C2 at LED index 1 of the red-LED-0 table. -/
theorem C2_witness :
    1 < NUM_LEDS ∧
    ((encode_leds_to_spi redTable).drop (12 * 1)).take 12 =
      encode_byte_to_ws2812 (redTable 1).g ++ encode_byte_to_ws2812 (redTable 1).r ++
        encode_byte_to_ws2812 (redTable 1).b :=
  ⟨by decide, C2_segment_is_grb redTable 1 (by decide)⟩

/-- C3: for a table whose LED 0 is `(r=255, g=0, b=0)`, the first 12 encoded
bytes are `88 88 88 88 CC CC CC CC 88 88 88 88`. -/
theorem C3_red_led_segment :
    (encode_leds_to_spi redTable).take 12 =
      [0x88, 0x88, 0x88, 0x88, 0xCC, 0xCC, 0xCC, 0xCC, 0x88, 0x88, 0x88, 0x88] := by
  decide

/-- C4: encoding a channel byte always yields exactly 4 bytes; encoding the
table always yields exactly `12 * NUM_LEDS = SPI_BUFFER_SIZE = 96` bytes;
and every `ws2812_show` call overwrites the whole SPI buffer with the fresh
encoding of the color table. -/
theorem C4_buffer_sizes :
    (∀ b, (encode_byte_to_ws2812 b).length = 4) ∧
    (∀ t, (encode_leds_to_spi t).length = 12 * NUM_LEDS) ∧
    SPI_BUFFER_SIZE = 96 ∧ 12 * NUM_LEDS = SPI_BUFFER_SIZE ∧
    (∀ s lane, (ws2812_show s lane).1.spi_buffer = encode_leds_to_spi s.led_colors ∧
      ((ws2812_show s lane).1.spi_buffer).length = SPI_BUFFER_SIZE) := by
  refine ⟨encode_byte_length, encode_leds_length, rfl, rfl, fun s lane => ⟨rfl, ?_⟩⟩
  show (encode_leds_to_spi s.led_colors).length = SPI_BUFFER_SIZE
  rw [encode_leds_length]
  decide

/-- C5: decoding the encoder's output (nibble `1000` back to protocol bit 0,
nibble `1100` back to protocol bit 1) reproduces the original byte: decode
after encode is the identity on all 256 byte values. -/
theorem C5_decode_encode_roundtrip :
    ∀ b < 256, decodeWs2812 (encode_byte_to_ws2812 b) = some b := by
  set_option maxRecDepth 4096 in decide

/-- Witness for C5 at the concrete byte `0x5A`. -/
theorem C5_witness :
    0x5A < 256 ∧ decodeWs2812 (encode_byte_to_ws2812 0x5A) = some 0x5A :=
  ⟨by decide, C5_decode_encode_roundtrip 0x5A (by decide)⟩

/-- C6: the frame encoder is a deterministic pure function of the color
table: any two `ws2812_show` calls whose states carry the same color table
produce bit-identical SPI buffers, regardless of the prior buffer contents
and of the lane's behaviour; the buffer is exactly the encoder's output and
the color table is left unchanged. -/
theorem C6_show_deterministic (s s' : DriverState) (lane lane' : Lane)
    (h : s.led_colors = s'.led_colors) :
    (ws2812_show s lane).1.spi_buffer = (ws2812_show s' lane').1.spi_buffer ∧
    (ws2812_show s lane).1.spi_buffer = encode_leds_to_spi s.led_colors ∧
    (ws2812_show s lane).1.led_colors = s.led_colors := by
  refine ⟨?_, rfl, rfl⟩
  show encode_leds_to_spi s.led_colors = encode_leds_to_spi s'.led_colors
  rw [h]

/-- Witness for C6: two shows from states sharing the color table but with
different stale buffers and different lanes. -/
theorem C6_witness :
    (DriverState.mk blackTable []).led_colors = (DriverState.mk blackTable [7]).led_colors ∧
    ((ws2812_show ⟨blackTable, []⟩ ⟨0, 0, 0⟩).1.spi_buffer =
        (ws2812_show ⟨blackTable, [7]⟩ ⟨-1, -1, 5⟩).1.spi_buffer ∧
      (ws2812_show ⟨blackTable, []⟩ ⟨0, 0, 0⟩).1.spi_buffer =
        encode_leds_to_spi (DriverState.mk blackTable []).led_colors ∧
      (ws2812_show ⟨blackTable, []⟩ ⟨0, 0, 0⟩).1.led_colors =
        (DriverState.mk blackTable []).led_colors) :=
  ⟨rfl, C6_show_deterministic ⟨blackTable, []⟩ ⟨blackTable, [7]⟩ ⟨0, 0, 0⟩ ⟨-1, -1, 5⟩ rfl⟩

/-- C7: the all-black color table encodes to the byte `0x88` repeated
`12 * NUM_LEDS` times, which is not the all-zero buffer. -/
theorem C7_black_not_all_zero :
    encode_leds_to_spi blackTable = List.replicate (12 * NUM_LEDS) 0x88 ∧
    encode_leds_to_spi blackTable ≠ List.replicate (12 * NUM_LEDS) 0 := by
  constructor <;> decide

end WS2812

namespace WS2812

/-- C8: every `ws2812_show` call applies the 100 µs reset delay before
filling the buffer and again after the transfer completes, and blocks
busy-polling until the lane reports not-busy before returning; it initiates
exactly one transfer per call, and in two sequential calls everything of the
second call — in particular its `dmaStart` — occurs after the first call's
completion poll. -/
theorem C8_show_blocks_until_complete (s s₂ : DriverState) (lane lane₂ : Lane) :
    (ws2812_show s lane).2
        = [Event.delayUs 100, Event.encodeFrame, Event.dmaReload SPI_BUFFER_SIZE,
            Event.dmaStart]
          ++ (List.replicate lane.busyPolls (Event.pollBusy true) ++
              [Event.pollBusy false])
          ++ [Event.delayUs 100]
    ∧ (ws2812_show s lane).2 ++ (ws2812_show s₂ lane₂).2
        = ([Event.delayUs 100, Event.encodeFrame, Event.dmaReload SPI_BUFFER_SIZE,
            Event.dmaStart] ++ List.replicate lane.busyPolls (Event.pollBusy true))
          ++ ([Event.pollBusy false] ++
              ([Event.delayUs 100] ++ (ws2812_show s₂ lane₂).2))
    ∧ ((ws2812_show s lane).2).count Event.dmaStart = 1 := by
  refine ⟨?_, ?_, ?_⟩
  · show _ ++ waitForDma lane.busyPolls ++ _ = _
    rw [waitForDma_eq]
  · show (_ ++ waitForDma lane.busyPolls ++ _) ++ _ = _
    rw [waitForDma_eq]
    simp
  · show (_ ++ waitForDma lane.busyPolls ++ _).count _ = 1
    rw [List.count_append, List.count_append, waitForDma_count_start]
    decide

/-- C9 counterexample: two lanes that differ only in the result codes of the
DMA reload and start calls — one succeeding (`0`), one failing (`-1`) —
yield literally identical `ws2812_show` results, so the caller cannot
observe success versus failure of the transfer from show's result. -/
theorem C9_counterexample :
    (Lane.mk 0 0 0).startResult ≠ (Lane.mk (-1) (-1) 0).startResult ∧
    ws2812_show ⟨blackTable, []⟩ (Lane.mk 0 0 0) =
      ws2812_show ⟨blackTable, []⟩ (Lane.mk (-1) (-1) 0) :=
  ⟨by decide, rfl⟩

/-- C9 (amended): transmission failures do NOT propagate to the `show`
caller: `ws2812_show` returns `void` and discards the lane's reload/start
result codes, so its entire observable result (state and trace) is
identical for any two lanes with the same busy-poll behaviour, whatever
their error codes. -/
theorem C9_failures_not_observable (s : DriverState) (lane lane' : Lane)
    (h : lane.busyPolls = lane'.busyPolls) :
    ws2812_show s lane = ws2812_show s lane' := by
  rw [ws2812_show, ws2812_show, h]

/-- Witness for the amended C9: a succeeding lane and a failing lane with
the same busy behaviour. -/
theorem C9_witness :
    (Lane.mk 0 0 3).busyPolls = (Lane.mk (-7) (-7) 3).busyPolls ∧
    ws2812_show ⟨blackTable, []⟩ (Lane.mk 0 0 3) =
      ws2812_show ⟨blackTable, []⟩ (Lane.mk (-7) (-7) 3) :=
  ⟨rfl, C9_failures_not_observable ⟨blackTable, []⟩ (Lane.mk 0 0 3) (Lane.mk (-7) (-7) 3) rfl⟩

/-- C10: for every index at or beyond `NUM_LEDS` and any color arguments,
`set_led_color` is a silent no-op — the color table is left unchanged (and
the function reports nothing), so entries can change only when the index is
strictly below the LED count. -/
theorem C10_set_led_color_out_of_range (index r g b : Nat)
    (t : Nat → ws2812_color_t) (h : NUM_LEDS ≤ index) :
    set_led_color index r g b t = t := by
  rw [set_led_color, if_neg (Nat.not_lt.mpr h)]

/-- Witness for C10 at index 8 (one past the last LED). -/
theorem C10_witness :
    NUM_LEDS ≤ 8 ∧ set_led_color 8 1 2 3 blackTable = blackTable :=
  ⟨by decide, C10_set_led_color_out_of_range 8 1 2 3 blackTable (by decide)⟩

end WS2812
